import Mathlib

/-!
Verification of the ClickPost / Omni-Retail multi-agent orchestrator.

The repository ships the Next.js frontend (chat client, dashboard, voice
page); the Python orchestration backend (entity extractor, planner, stage
executor, session store, synthesizer) is described by the specification but
its sources are not present, so those components are modelled from the
specification text, while the chat client's behaviour is translated
directly from the frontend source.
-/

namespace ClickPost

/-! ## Definitions -/

/-- Modelled from the spec: the entity kinds of the data model
(order id, product name, ticket id, user id, amount, date range). -/
inductive EntityKind where
  | order_id
  | product_name
  | ticket_id
  | user_id
  | amount
  | date_range
deriving DecidableEq, Repr

/-- All entity kinds, for finite quantification. -/
def allKinds : List EntityKind :=
  [.order_id, .product_name, .ticket_id, .user_id, .amount, .date_range]

/-- Modelled from the spec: provenance tags for resolved entity values. -/
inductive Provenance where
  | from_text
  | from_context
  | resolved_by_capability
deriving DecidableEq, Repr

/-- Modelled from the spec: a resolved value together with its provenance. -/
structure EntityValue where
  value : String
  prov : Provenance
deriving DecidableEq, Repr

/-- Modelled from the spec: an EntitySet maps each entity kind to at most
one resolved value per turn. -/
def EntitySet := EntityKind → Option EntityValue

/-- Whether the text carries, for kind `k0`, a value that differs from the
value stored in the prior context (a "new" text value, as in the
extractor's edge case of spec section 4.1). -/
def isNewTextValue (textEnts : EntityKind → Option String) (prior : EntitySet)
    (k0 : EntityKind) : Bool :=
  match textEnts k0 with
  | some v =>
    match prior k0 with
    | some ev => decide (v ≠ ev.value)
    | none => true
  | none => false

/-- Whether some kind other than `k` has a new text value. -/
def hasNewTextValueOther (textEnts : EntityKind → Option String) (prior : EntitySet)
    (k : EntityKind) : Bool :=
  allKinds.any (fun k0 => decide (k0 ≠ k) && isNewTextValue textEnts prior k0)

/-- Modelled from the spec: the Entity Extractor, section 4.1.
`extract(query_text, prior_context) -> EntitySet`.  The text recognition
itself is external, abstracted as `textEnts`; `rederivedTier0 k` says the
plan will re-derive kind `k` in tier 0.  A kind found in text is tagged
`from_text` and overrides the context value of the same kind; a kind absent
from text is copied through from the prior context tagged `from_context`,
except in the section 4.1 edge case: when the text contains a new value for
another kind and the plan will re-derive this kind at tier 0, the kind is
left absent so the executor re-resolves it instead of risking a stale
identifier. -/
def extract (textEnts : EntityKind → Option String) (prior : EntitySet)
    (rederivedTier0 : EntityKind → Bool) : EntitySet :=
  fun k =>
    match textEnts k with
    | some v => some ⟨v, .from_text⟩
    | none =>
      match prior k with
      | some ev =>
        if rederivedTier0 k && hasNewTextValueOther textEnts prior k then none
        else some ⟨ev.value, .from_context⟩
      | none => none

/-- Modelled from the spec: end-of-turn session-context reconciliation,
section 4.4.  Kinds present in the turn's final EntitySet with provenance
`from_text` or `resolved_by_capability` overwrite the stored value; kinds
with provenance `from_context` are left untouched. -/
def updateContext (stored : EntitySet) (turn : EntitySet) : EntitySet :=
  fun k =>
    match turn k with
    | some ev =>
      match ev.prov with
      | .from_context => stored k
      | _ => some ev
    | none => stored k

/-- A turn whose text mentions order id ORD-2 and nothing else. -/
def teOverride : EntityKind → Option String := fun k =>
  match k with
  | .order_id => some "ORD-2"
  | _ => none

/-- A stored context holding order id ORD-1. -/
def prOverride : EntitySet := fun k =>
  match k with
  | .order_id => some ⟨"ORD-1", .from_context⟩
  | _ => none

/-- A planner signal that re-derives no kind at tier 0. -/
def rdNone : EntityKind → Bool := fun _ => false

/-- A turn whose text mentions a new product name and omits any order id. -/
def teNewProduct : EntityKind → Option String := fun k =>
  match k with
  | .product_name => some "4K Ultra HD Gaming Monitor"
  | _ => none

/-- A stored context holding order id ORD-7 and a different product name. -/
def prStored : EntitySet := fun k =>
  match k with
  | .order_id => some ⟨"ORD-7", .from_text⟩
  | .product_name => some ⟨"Wireless Headphones", .from_text⟩
  | _ => none

/-- A planner signal that will re-derive the order id at tier 0. -/
def rdOrder : EntityKind → Bool := fun k =>
  match k with
  | .order_id => true
  | _ => false

/-- The context-override property of a turn: the text-mentioned order id O2
is resolved tagged `from_text`, the stored O1 is gone, and in general any
kind found in text wins over the context value of the same kind. -/
def ContextOverrideProp (te : EntityKind → Option String) (pr : EntitySet)
    (rd : EntityKind → Bool) (O1 O2 : String) : Prop :=
  extract te pr rd .order_id = some ⟨O2, .from_text⟩ ∧
  (∀ q : Provenance, extract te pr rd .order_id ≠ some ⟨O1, q⟩) ∧
  (∀ k v, te k = some v → extract te pr rd k = some ⟨v, .from_text⟩)

/-- The carry-through property of a turn: the stored order id O is resolved
tagged `from_context`, and the end-of-turn reconciliation leaves the stored
value for that kind unchanged. -/
def ContextCarryProp (te : EntityKind → Option String) (pr : EntitySet)
    (rd : EntityKind → Bool) (O : String) : Prop :=
  extract te pr rd .order_id = some ⟨O, .from_context⟩ ∧
  updateContext pr (extract te pr rd) .order_id = pr .order_id

/-- Modelled from the spec: terminal invocation statuses. -/
inductive Status where
  | ok
  | not_found
  | error
  | timeout
deriving DecidableEq, Repr

/-- Modelled from the spec: a capability with its declared required and
produced entity kinds (its dependency tier is derived from requirement
satisfiability, per the data-model characterization of tier 0). -/
structure Capability where
  name : String
  required_entity_kinds : List EntityKind
  produced_entity_kinds : List EntityKind
deriving DecidableEq, Repr

/-- Modelled from the spec: the outcome of one capability invocation. -/
structure CapabilityResult where
  capability_name : String
  status : Status
  produced_entities : List (EntityKind × String)
deriving DecidableEq, Repr

/-- The external capability-store collaborator: given a capability name and
the bound parameters, return a terminal status and produced entities. -/
def Invoke := String → EntitySet → Status × List (EntityKind × String)

/-- One capability invocation, parameters bound against `es`. -/
def runInvocation (invoke : Invoke) (es : EntitySet) (c : Capability) :
    CapabilityResult :=
  { capability_name := c.name
    status := (invoke c.name es).1
    produced_entities := (invoke c.name es).2 }

/-- Modelled from the spec: all invocations of one tier, each bound against
the same EntitySet (no intra-tier ordering is depended on). -/
def tierResults (invoke : Invoke) (es : EntitySet) (tier : List Capability) :
    List CapabilityResult :=
  tier.map (runInvocation invoke es)

/-- Trace events: an invocation starting, or reaching a terminal state. -/
inductive Event where
  | start : String → Event
  | finish : String → Status → Event
deriving DecidableEq, Repr

/-- The capability name an event concerns. -/
def Event.capName : Event → String
  | .start n => n
  | .finish n _ => n

/-- Modelled from the spec: the event trace of one tier — every invocation
starts concurrently, and the tier completes only when every invocation has
reached a terminal state, so all starts precede all finishes. -/
def tierEvents (invoke : Invoke) (es : EntitySet) (tier : List Capability) :
    List Event :=
  tier.map (fun c => Event.start c.name) ++
    (tierResults invoke es tier).map (fun r => Event.finish r.capability_name r.status)

/-- Write one produced entity into the working EntitySet, tagged
`resolved_by_capability`. -/
def applyProduced (es : EntitySet) (kv : EntityKind × String) : EntitySet :=
  fun k => if k = kv.1 then some ⟨kv.2, .resolved_by_capability⟩ else es k

/-- Merge one result into the working set: only `ok` results contribute,
and within a tier the first writer of a kind wins (the accumulator's second
component records the kinds already written this tier). -/
def mergeResult (acc : EntitySet × List EntityKind) (r : CapabilityResult) :
    EntitySet × List EntityKind :=
  if r.status = .ok then
    r.produced_entities.foldl
      (fun a kv => if kv.1 ∈ a.2 then a else (applyProduced a.1 kv, kv.1 :: a.2))
      acc
  else acc

/-- Modelled from the spec: after a tier completes, merge the produced
entities of all its `ok` results into the working EntitySet. -/
def mergeTier (es : EntitySet) (rs : List CapabilityResult) : EntitySet :=
  (rs.foldl mergeResult (es, [])).1

/-- The executor's running state: recorded results, working EntitySet, and
the event trace. -/
structure ExecState where
  results : List CapabilityResult
  entities : EntitySet
  trace : List Event

/-- Run one tier: bind every invocation against the current working set,
record every terminal outcome, merge `ok` productions, extend the trace. -/
def execTierStep (invoke : Invoke) (st : ExecState) (tier : List Capability) :
    ExecState :=
  { results := st.results ++ tierResults invoke st.entities tier
    entities := mergeTier st.entities (tierResults invoke st.entities tier)
    trace := st.trace ++ tierEvents invoke st.entities tier }

/-- Modelled from the spec: the Stage Executor, section 4.3 — tiers run
strictly in order; a tier fully completes before the next tier's parameter
binding; per-invocation failures are absorbed as data, never exceptions. -/
def execute (invoke : Invoke) (tiers : List (List Capability)) (es : EntitySet) :
    ExecState :=
  tiers.foldl (execTierStep invoke) ⟨[], es, []⟩

/-- Modelled from the spec: the aggregated partial-failure flag of an
orchestration — true when some invocation ended in `error` or `timeout`. -/
def anyInvocationFailed (rs : List CapabilityResult) : Bool :=
  rs.any (fun r =>
    match r.status with
    | .error => true
    | .timeout => true
    | _ => false)

/-- The event is a terminal-state record of a capability of `tier`. -/
def IsFinishOf (tier : List Capability) (e : Event) : Prop :=
  ∃ c ∈ tier, ∃ s, e = Event.finish c.name s

/-- The event is the start of an invocation of a capability of `tier`. -/
def IsStartOf (tier : List Capability) (e : Event) : Prop :=
  ∃ c ∈ tier, e = Event.start c.name

/-- The tier-ordering property of a two-tier plan: in the execution trace,
every terminal-state event of tier 0 precedes every start event of tier 1,
and tier 1's invocations are bound against the EntitySet fully merged from
tier 0's results. -/
def TierOrderingProp (invoke : Invoke) (t0 t1 : List Capability)
    (es : EntitySet) : Prop :=
  (∀ i j (hi : i < (execute invoke [t0, t1] es).trace.length)
      (hj : j < (execute invoke [t0, t1] es).trace.length),
    IsFinishOf t0 ((execute invoke [t0, t1] es).trace.get ⟨i, hi⟩) →
    IsStartOf t1 ((execute invoke [t0, t1] es).trace.get ⟨j, hj⟩) →
    i < j) ∧
  (execute invoke [t0, t1] es).results =
    tierResults invoke es t0 ++
      tierResults invoke (mergeTier es (tierResults invoke es t0)) t1

/-- The partial-failure-tolerance property of a two-tier plan: every tier-0
sibling's terminal outcome is recorded, the later tier still executes in
full, bound against the merge of the successful siblings only, and the
failure is aggregated into the partial-failure flag. -/
def FailureToleranceProp (invoke : Invoke) (t0 t1 : List Capability)
    (es : EntitySet) : Prop :=
  (∀ c ∈ t0, runInvocation invoke es c ∈ (execute invoke [t0, t1] es).results) ∧
  (execute invoke [t0, t1] es).results =
    tierResults invoke es t0 ++
      tierResults invoke (mergeTier es (tierResults invoke es t0)) t1 ∧
  (tierResults invoke (mergeTier es (tierResults invoke es t0)) t1).length =
    t1.length ∧
  mergeTier es (tierResults invoke es t0) =
    mergeTier es
      ((tierResults invoke es t0).filter (fun r => r.status == Status.ok)) ∧
  anyInvocationFailed (execute invoke [t0, t1] es).results = true

/-- The catalog order-resolution capability (tier 0 in scenario 1). -/
def catalogResolve : Capability :=
  ⟨"catalog-resolve", [.product_name], [.order_id]⟩

/-- The logistics shipment-lookup capability. -/
def logisticsLookup : Capability :=
  ⟨"logistics-lookup", [.order_id], []⟩

/-- The support-ticket lookup capability. -/
def supportTicketLookup : Capability :=
  ⟨"support-ticket-lookup", [.order_id], []⟩

/-- The care-desk lookup capability (errors in the witness oracle). -/
def careDeskLookup : Capability :=
  ⟨"care-desk-lookup", [.user_id], []⟩

/-- The shipment-tracking capability (times out in the witness oracle). -/
def shipstreamTrack : Capability :=
  ⟨"shipstream-track", [.user_id], []⟩

/-- The wallet-balance capability of scenario 3. -/
def paymentsBalance : Capability :=
  ⟨"payments-balance", [.user_id], []⟩

/-- The recent-purchases capability of scenario 3. -/
def catalogRecentOrders : Capability :=
  ⟨"catalog-recent-orders", [.user_id], []⟩

/-- A concrete invocation oracle: catalog resolution succeeds and produces
order id 3, logistics and ticket lookups succeed, the care-desk store is
unreachable (error), shipment tracking exceeds its deadline (timeout),
anything else is not found. -/
def wInvoke : Invoke := fun n _ =>
  match n with
  | "catalog-resolve" => (.ok, [(.order_id, "3")])
  | "logistics-lookup" => (.ok, [])
  | "support-ticket-lookup" => (.ok, [])
  | "care-desk-lookup" => (.error, [])
  | "shipstream-track" => (.timeout, [])
  | _ => (.not_found, [])

/-- An initial EntitySet with a product name from text and a known user. -/
def esProduct : EntitySet := fun k =>
  match k with
  | .product_name => some ⟨"4K Ultra HD Gaming Monitor", .from_text⟩
  | .user_id => some ⟨"1", .from_context⟩
  | _ => none

/-- A capability's requirements are all present in the EntitySet. -/
def satisfiedBy (es : EntitySet) (c : Capability) : Bool :=
  c.required_entity_kinds.all (fun k => (es k).isSome)

/-- For planning, optimistically extend the EntitySet with the kinds the
listed capabilities will produce. -/
def assumeProduced (es : EntitySet) (cs : List Capability) : EntitySet :=
  fun k =>
    if cs.any (fun c => c.produced_entity_kinds.contains k) then
      some ⟨"", .resolved_by_capability⟩
    else es k

/-- Tier construction by satisfiability waves, fuelled by the number of
pending capabilities: a tier holds every pending capability whose
requirements are satisfiable from the EntitySet after the previous tiers;
capabilities never reaching satisfiability are dropped (`unresolvable`). -/
def planTiers : Nat → List Capability → EntitySet → List (List Capability)
  | 0, _, _ => []
  | fuel + 1, pending, es =>
    let ready := pending.filter (satisfiedBy es)
    if ready.isEmpty then []
    else
      ready :: planTiers fuel (pending.filter (fun c => !satisfiedBy es c))
        (assumeProduced es ready)

/-- Modelled from the spec: the Planner, section 4.2 — accepted capabilities
are arranged into ascending dependency tiers, stable within a tier in
acceptance order; a capability sits in the first tier whose preceding
EntitySet satisfies its requirements. -/
def plan (accepted : List Capability) (es : EntitySet) :
    List (List Capability) :=
  planTiers accepted.length accepted es

/-- An initial EntitySet holding only a known user id. -/
def esKnownUser : EntitySet := fun k =>
  match k with
  | .user_id => some ⟨"1", .from_context⟩
  | _ => none

/-- The degenerate single-tier plan: all accepted invocations in one
parallel sweep. -/
def SingleTierProp (accepted : List Capability) (es : EntitySet) : Prop :=
  plan accepted es = [accepted]

/-- Modelled from the spec: per-session context. -/
structure SessionContext where
  entities : EntitySet
  turn_count : Nat

/-- Modelled from the spec: the session store maps session ids to their
contexts; an absent id is a normal, representable state. -/
def SessionStore := String → Option SessionContext

/-- Modelled from the spec: `reset_session(session_id)` clears the
SessionContext for that id; it is total — resetting an unknown or expired
id is representable and returns a store, never an error. -/
def reset_session (store : SessionStore) (sid : String) : SessionStore :=
  fun s => if s = sid then none else store s

/-- A chat message of the client (frontend `Message` interface). -/
inductive MsgType where
  | user
  | assistant
deriving DecidableEq, Repr

/-- The client's message record (id omitted; it is derived from the
timestamp). -/
structure ChatMessage where
  mtype : MsgType
  content : String
  timestamp : String
deriving DecidableEq, Repr

/-- The chat client's state: message list, input box, in-flight flag, and
whether the WebSocket is open. -/
structure ChatState where
  messages : List ChatMessage
  input : String
  loading : Bool
  wsOpen : Bool
deriving DecidableEq, Repr

/-- The transport a query leaves by. -/
inductive Transport where
  | websocket
  | rest
deriving DecidableEq, Repr

/-- An outbound query payload: `{query, user_id}` over one transport. -/
structure OutboundQuery where
  transport : Transport
  query : String
  user_id : Nat
deriving DecidableEq, Repr

/-- Transmit a query: over the WebSocket when it is open, otherwise by
HTTP POST to /query (frontend `handleSendMessage` / `sendViaRestAPI`). -/
def sendQuery (wsOpen : Bool) (q : String) : OutboundQuery :=
  ⟨if wsOpen then .websocket else .rest, q, 1⟩

/-- The client's send operation (frontend `handleSendMessage`): a no-op
when the trimmed input is empty or a request is in flight; otherwise the
trimmed input is appended as one user message, the input is cleared,
loading is set, and the query leaves by exactly one transport. -/
def handleSendMessage (now : String) (s : ChatState) :
    ChatState × Option OutboundQuery :=
  if s.input.trim = "" || s.loading then (s, none)
  else
    ({ s with
        input := ""
        loading := true
        messages := s.messages ++ [⟨.user, s.input.trim, now⟩] },
      some (sendQuery s.wsOpen s.input.trim))

/-- The client's New Chat operation (frontend `handleNewChat`): always
clears the local message list and input, and always issues the `reset`
command, regardless of prior state. -/
def handleNewChat (s : ChatState) : ChatState × OutboundQuery :=
  ({ s with messages := [], input := "" }, sendQuery s.wsOpen "reset")

/-- The idempotent-reset property: reset of an absent session id is a
no-op, reset twice equals reset once, and the client's New Chat always
clears its message list and issues the reset command. -/
def IdempotentResetProp (store : SessionStore) (sid : String) : Prop :=
  reset_session store sid = store ∧
  (∀ store2 : SessionStore,
    reset_session (reset_session store2 sid) sid = reset_session store2 sid) ∧
  (∀ s : ChatState,
    (handleNewChat s).1.messages = [] ∧ (handleNewChat s).2.query = "reset")

/-- A store with no sessions. -/
def emptyStore : SessionStore := fun _ => none

/-- Modelled from the spec: the input to the narrative collaborator. -/
structure SynthesisBundle where
  query_text : String
  capability_results : List CapabilityResult
deriving DecidableEq, Repr

/-- Modelled from the spec: the deterministic templated fallback message,
carrying the structured capability results' provenance. -/
def fallbackNarrative (b : SynthesisBundle) : String :=
  "I could not generate a full narrative right now. Structured results are included from: "
    ++ String.intercalate ", "
        (b.capability_results.map CapabilityResult.capability_name)

/-- Modelled from the spec: the core calls the external narrative
collaborator and, when it fails, still answers with the structured
capability results and the deterministic fallback message. -/
def synthesizeWithFallback (synth : SynthesisBundle → Option String)
    (b : SynthesisBundle) : String × List CapabilityResult :=
  match synth b with
  | some t => (t, b.capability_results)
  | none => (fallbackNarrative b, b.capability_results)

/-- JavaScript `||` on a possibly-absent string: an absent or empty value
falls through to the default. -/
def orFalsy (a : Option String) (dflt : String) : String :=
  match a with
  | some s => if s = "" then dflt else s
  | none => dflt

/-- The client's fixed placeholder for a response with no narrative. -/
def noResponseText : String := "No response received"

/-- The content the client displays for a WebSocket response:
`response.narrative || response.narrative_response || 'No response received'`. -/
def wsContent (narrative narrative_response : Option String) : String :=
  orFalsy narrative (orFalsy narrative_response noResponseText)

/-- The content the client displays for a REST response:
`data.narrative_response || 'No response received'`. -/
def restContent (narrative_response : Option String) : String :=
  orFalsy narrative_response noResponseText

/-- The synthesis-fallback property: when the collaborator fails, the
answer is the deterministic templated fallback together with the structured
results, and the chat client substitutes its fixed placeholder whenever the
response carries no narrative (absent or empty, on both transports). -/
def SynthesisFallbackProp (synth : SynthesisBundle → Option String)
    (b : SynthesisBundle) : Prop :=
  (synthesizeWithFallback synth b).1 = fallbackNarrative b ∧
  (synthesizeWithFallback synth b).2 = b.capability_results ∧
  wsContent none none = noResponseText ∧
  wsContent (some "") (some "") = noResponseText ∧
  restContent none = noResponseText ∧
  restContent (some "") = noResponseText

/-- A collaborator that always fails. -/
def synthDown : SynthesisBundle → Option String := fun _ => none

/-- A concrete bundle for the fallback witness. -/
def wBundle : SynthesisBundle :=
  ⟨"where is my order", [⟨"catalog-resolve", .ok, [(.order_id, "3")]⟩]⟩

/-- Modelled from the spec: the field names of `OrchestrationResult`, the
payload the transport layer serializes to its callers. -/
def orchestrationResultFields : List String :=
  ["narrative_text", "agents_invoked", "partial_failure", "entities_resolved"]

/-- The field names the chat client's `QueryResponse` interface declares
(frontend source). -/
def queryResponseFields : List String :=
  ["timestamp", "query", "agents_invoked", "narrative_response", "data_sources"]

/-- The client's reconnection cap (frontend `maxReconnectAttempts`). -/
def maxReconnectAttempts : Nat := 5

/-- The reconnection backoff (frontend: `Math.min(1000 * 2 ** n, 10000)`). -/
def reconnectDelay (n : Nat) : Nat := min (1000 * 2 ^ n) 10000

/-- The client's `onclose` handler acting on the attempt counter: while
strictly below the cap, increment the counter and schedule a reconnection
after the backoff delay; otherwise schedule nothing. -/
def onClose (attempts : Nat) : Nat × Option Nat :=
  if attempts < maxReconnectAttempts then
    (attempts + 1, some (reconnectDelay (attempts + 1)))
  else (attempts, none)

/-- The client's `onopen` handler: the attempt counter resets to 0. -/
def onOpen (_attempts : Nat) : Nat := 0

/-- The attempt counter after one close event. -/
def closeStep (attempts : Nat) : Nat := (onClose attempts).1

/-- The send-message contract: a no-op when the trimmed input is empty or
a request is in flight; otherwise exactly one user message holding the
trimmed input is appended, the input is cleared, loading is set, and the
query leaves by the WebSocket when open, otherwise by HTTP POST. -/
def SendMessageProp (now : String) (s : ChatState) : Prop :=
  ((s.input.trim = "" ∨ s.loading = true) →
    handleSendMessage now s = (s, none)) ∧
  (s.input.trim ≠ "" → s.loading = false →
    handleSendMessage now s =
      ({ messages := s.messages ++ [⟨.user, s.input.trim, now⟩]
         input := ""
         loading := true
         wsOpen := s.wsOpen },
        some ⟨if s.wsOpen then .websocket else .rest, s.input.trim, 1⟩))

/-- A state ready to send: nonempty (untrimmed) input, not loading, socket
open. -/
def sReady : ChatState := ⟨[], "  hello  ", false, true⟩

/-- A state with a request in flight. -/
def sBusy : ChatState := ⟨[], "hi", true, true⟩

/-! ## Theorems -/

/-- C1: if the stored context holds order id O1 and the turn's text mentions
a different order id O2, the resolved EntitySet contains O2 tagged
`from_text` and not O1; a `from_text` value of a kind always overrides a
`from_context` value of the same kind. -/
theorem context_override (te : EntityKind → Option String) (pr : EntitySet)
    (rd : EntityKind → Bool) (O1 O2 : String) (p : Provenance)
    (_hpr : pr .order_id = some ⟨O1, p⟩)
    (hte : te .order_id = some O2)
    (hne : O2 ≠ O1) :
    ContextOverrideProp te pr rd O1 O2 := by
  have hx : extract te pr rd .order_id = some ⟨O2, .from_text⟩ := by
    unfold extract
    rw [hte]
  refine ⟨hx, ?_, ?_⟩
  · intro q hq
    rw [hx] at hq
    simp only [Option.some.injEq, EntityValue.mk.injEq] at hq
    exact hne hq.1
  · intro k v hv
    unfold extract
    rw [hv]

/-- C1 witness: the override property at a concrete session (stored ORD-1,
text mentions ORD-2). -/
theorem context_override_witness :
    ContextOverrideProp teOverride prOverride rdNone "ORD-1" "ORD-2" :=
  context_override teOverride prOverride rdNone "ORD-1" "ORD-2"
    .from_context rfl rfl (by decide)

/-- C4 counterexample: the spec's own section 4.1 edge case defeats the
unconditional carry-through claim.  The stored context holds ORD-7 and the
text omits any order identifier, yet because the text carries a new product
name and the plan re-derives the order id at tier 0, the extractor leaves
the order id absent rather than copying ORD-7 from context. -/
theorem context_carry_counterexample :
    teNewProduct .order_id = none ∧
    prStored .order_id = some ⟨"ORD-7", .from_text⟩ ∧
    extract teNewProduct prStored rdOrder .order_id = none ∧
    extract teNewProduct prStored rdOrder .order_id ≠
      some ⟨"ORD-7", .from_context⟩ := by
  decide

/-- C4 (amended): if the stored context holds order id O, the turn's text
omits any order identifier, and the section 4.1 edge case does not apply
(the plan does not re-derive the order id at tier 0, or no other kind has a
new text value), then the resolved EntitySet carries O tagged
`from_context` and the stored value for that kind is unchanged at the end
of the turn. -/
theorem context_carry_through (te : EntityKind → Option String) (pr : EntitySet)
    (rd : EntityKind → Bool) (O : String) (p : Provenance)
    (hte : te .order_id = none)
    (hpr : pr .order_id = some ⟨O, p⟩)
    (hsafe : rd .order_id = false ∨ hasNewTextValueOther te pr .order_id = false) :
    ContextCarryProp te pr rd O := by
  have hx : extract te pr rd .order_id = some ⟨O, .from_context⟩ := by
    unfold extract
    rw [hte, hpr]
    rcases hsafe with h | h <;> simp [h]
  refine ⟨hx, ?_⟩
  unfold updateContext
  rw [hx]

/-- C4 witness: carry-through at a concrete session (stored ORD-7, text a
new product name, but no tier-0 re-derivation of the order id). -/
theorem context_carry_witness :
    ContextCarryProp teNewProduct prStored rdNone "ORD-7" :=
  context_carry_through teNewProduct prStored rdNone "ORD-7"
    .from_text rfl rfl (Or.inl rfl)

/-- Every event of a tier's trace concerns a capability of that tier. -/
theorem capName_mem_of_mem_tierEvents (invoke : Invoke) (es : EntitySet)
    (tier : List Capability) (e : Event) (he : e ∈ tierEvents invoke es tier) :
    e.capName ∈ tier.map Capability.name := by
  unfold tierEvents at he
  rcases List.mem_append.1 he with h | h
  · rcases List.mem_map.1 h with ⟨c, hc, rfl⟩
    exact List.mem_map.2 ⟨c, hc, rfl⟩
  · rcases List.mem_map.1 h with ⟨r, hr, rfl⟩
    rcases List.mem_map.1 hr with ⟨c, hc, rfl⟩
    exact List.mem_map.2 ⟨c, hc, rfl⟩

/-- In a concatenated trace whose second part never satisfies `P` and whose
first part never satisfies `Q`, every position satisfying `P` precedes every
position satisfying `Q`. -/
theorem lt_of_append_sep {α : Type} (A B : List α) (P Q : α → Prop)
    (hA : ∀ b ∈ B, ¬ P b) (hB : ∀ a ∈ A, ¬ Q a)
    (i j : Nat) (hi : i < (A ++ B).length) (hj : j < (A ++ B).length)
    (hP : P ((A ++ B).get ⟨i, hi⟩)) (hQ : Q ((A ++ B).get ⟨j, hj⟩)) :
    i < j := by
  rw [List.get_eq_getElem] at hP hQ
  have hiA : i < A.length := by
    by_contra hcon
    push_neg at hcon
    rw [List.getElem_append_right hcon] at hP
    exact hA _ (List.getElem_mem _) hP
  have hjA : A.length ≤ j := by
    by_contra hcon
    push_neg at hcon
    rw [List.getElem_append_left hcon] at hQ
    exact hB _ (List.getElem_mem _) hQ
  omega

/-- C2: for a plan with tiers T0 and T1 (a capability appearing in exactly
one tier), every T1 invocation starts only after every T0 invocation has
reached a terminal state, and T1's parameter binding observes the EntitySet
fully merged from T0's results. -/
theorem tier_ordering (invoke : Invoke) (t0 t1 : List Capability)
    (es : EntitySet)
    (hdisj : ∀ c0 ∈ t0, ∀ c1 ∈ t1, c0.name ≠ c1.name) :
    TierOrderingProp invoke t0 t1 es := by
  constructor
  · intro i j hi hj hP hQ
    refine lt_of_append_sep (tierEvents invoke es t0)
      (tierEvents invoke (mergeTier es (tierResults invoke es t0)) t1)
      (IsFinishOf t0) (IsStartOf t1) ?_ ?_ i j hi hj hP hQ
    · rintro e he ⟨c, hc, s, rfl⟩
      have hn := capName_mem_of_mem_tierEvents _ _ _ _ he
      rcases List.mem_map.1 hn with ⟨c1, hc1, hname⟩
      exact hdisj c hc c1 hc1 hname.symm
    · rintro e he ⟨c1, hc1, rfl⟩
      have hn := capName_mem_of_mem_tierEvents _ _ _ _ he
      rcases List.mem_map.1 hn with ⟨c0, hc0, hname⟩
      exact hdisj c0 hc0 c1 hc1 hname
  · rfl

/-- C2 witness: tier ordering on the concrete scenario-1 plan, tier 0 the
catalog resolution and tier 1 the logistics and ticket lookups. -/
theorem tier_ordering_witness :
    TierOrderingProp wInvoke [catalogResolve]
      [logisticsLookup, supportTicketLookup] esProduct :=
  tier_ordering wInvoke [catalogResolve]
    [logisticsLookup, supportTicketLookup] esProduct (by decide)

/-- Folding the tier merge ignores every non-`ok` result, so it equals the
fold over only the `ok` results. -/
theorem foldl_mergeResult_filter (rs : List CapabilityResult) :
    ∀ acc : EntitySet × List EntityKind,
      rs.foldl mergeResult acc =
        (rs.filter (fun r => r.status == Status.ok)).foldl mergeResult acc := by
  induction rs with
  | nil => intro acc; rfl
  | cons r rs ih =>
    intro acc
    by_cases h : r.status = Status.ok
    · have hp : (r.status == Status.ok) = true := by
        simp [h]
      simp only [List.filter_cons, hp, List.foldl_cons, if_true]
      exact ih (mergeResult acc r)
    · have hp : (r.status == Status.ok) = false := by
        simp [h]
      have hm : mergeResult acc r = acc := by
        unfold mergeResult
        simp [h]
      simp only [List.filter_cons, hp, List.foldl_cons, if_false, Bool.false_eq_true]
      rw [hm]
      exact ih acc

/-- The tier merge is determined by the `ok` results alone. -/
theorem mergeTier_filter_ok (es : EntitySet) (rs : List CapabilityResult) :
    mergeTier es rs =
      mergeTier es (rs.filter (fun r => r.status == Status.ok)) := by
  unfold mergeTier
  rw [foldl_mergeResult_filter]

/-- C3: if one tier-0 invocation returns `error` or `timeout`, every
sibling invocation still reaches a terminal state and is recorded, the
later tier still executes using the entities merged from the successful
siblings, and the failure is aggregated into the partial-failure flag
(never an exception: the executor is a total function). -/
theorem failure_tolerance (invoke : Invoke) (t0 t1 : List Capability)
    (es : EntitySet)
    (hfail : ∃ c ∈ t0,
      (runInvocation invoke es c).status = Status.error ∨
      (runInvocation invoke es c).status = Status.timeout) :
    FailureToleranceProp invoke t0 t1 es := by
  refine ⟨?_, rfl, List.length_map _ _, mergeTier_filter_ok _ _, ?_⟩
  · intro c hc
    show runInvocation invoke es c ∈
      tierResults invoke es t0 ++
        tierResults invoke (mergeTier es (tierResults invoke es t0)) t1
    exact List.mem_append.2 (Or.inl (List.mem_map.2 ⟨c, hc, rfl⟩))
  · rcases hfail with ⟨c, hc, hst⟩
    unfold anyInvocationFailed
    rw [List.any_eq_true]
    refine ⟨runInvocation invoke es c, ?_, ?_⟩
    · show runInvocation invoke es c ∈
        tierResults invoke es t0 ++
          tierResults invoke (mergeTier es (tierResults invoke es t0)) t1
      exact List.mem_append.2 (Or.inl (List.mem_map.2 ⟨c, hc, rfl⟩))
    · rcases hst with h | h <;> rw [h]

/-- C3 witness: failure tolerance on a concrete tier where the care-desk
store errors and the shipment tracking times out while the catalog
resolution succeeds beside them. -/
theorem failure_tolerance_witness :
    FailureToleranceProp wInvoke [catalogResolve, careDeskLookup, shipstreamTrack]
      [logisticsLookup] esProduct :=
  failure_tolerance wInvoke [catalogResolve, careDeskLookup, shipstreamTrack]
    [logisticsLookup] esProduct (by decide)

/-- The plan of an empty pending set has no tiers, whatever the fuel. -/
theorem planTiers_nil (fuel : Nat) (es : EntitySet) :
    planTiers fuel [] es = [] := by
  cases fuel with
  | zero => rfl
  | succ n => rfl

/-- C8: when every accepted capability's requirements are satisfiable from
the initial EntitySet, the Planner produces a plan with exactly one tier
containing all accepted invocations, in acceptance order. -/
theorem single_tier_plan (accepted : List Capability) (es : EntitySet)
    (hne : accepted ≠ [])
    (hall : ∀ c ∈ accepted, satisfiedBy es c = true) :
    SingleTierProp accepted es := by
  unfold SingleTierProp plan
  obtain ⟨a, as, rfl⟩ : ∃ a as, accepted = a :: as := by
    cases accepted with
    | nil => exact absurd rfl hne
    | cons a as => exact ⟨a, as, rfl⟩
  show planTiers (a :: as).length (a :: as) es = [a :: as]
  rw [List.length_cons]
  unfold planTiers
  have hfilter : (a :: as).filter (satisfiedBy es) = a :: as :=
    List.filter_eq_self.mpr hall
  have hnofilter : (a :: as).filter (fun c => !satisfiedBy es c) = [] := by
    refine List.filter_eq_nil_iff.mpr ?_
    intro c hc
    simp [hall c hc]
  simp only [hfilter, hnofilter, List.isEmpty_cons, Bool.false_eq_true,
    if_false, planTiers_nil]

/-- C8 witness: scenario 3 — with a known user id, wallet balance and
recent purchases form one tier containing both capabilities. -/
theorem single_tier_plan_witness :
    SingleTierProp [paymentsBalance, catalogRecentOrders] esKnownUser :=
  single_tier_plan [paymentsBalance, catalogRecentOrders] esKnownUser
    (by decide) (by decide)

/-- C6: resetting an already-empty or nonexistent session is a no-op and
never an error (reset is total); reset twice equals reset once; and the
client's New Chat operation always clears its local message list and
issues the reset command, regardless of prior state. -/
theorem idempotent_reset (store : SessionStore) (sid : String)
    (hmissing : store sid = none) :
    IdempotentResetProp store sid := by
  refine ⟨?_, ?_, ?_⟩
  · funext s
    unfold reset_session
    by_cases h : s = sid
    · subst h
      rw [if_pos rfl, hmissing]
    · rw [if_neg h]
  · intro store2
    funext s
    unfold reset_session
    by_cases h : s = sid <;> simp [h]
  · intro s
    exact ⟨rfl, rfl⟩

/-- C6 witness: idempotent reset on a store with no sessions. -/
theorem idempotent_reset_witness :
    IdempotentResetProp emptyStore "session-1" :=
  idempotent_reset emptyStore "session-1" rfl

/-- C7: when the narrative collaborator fails, the core still answers with
the structured capability results and the deterministic templated fallback
message, never an absent answer; the chat client substitutes its fixed
placeholder whenever the response carries no narrative. -/
theorem synthesis_fallback (synth : SynthesisBundle → Option String)
    (b : SynthesisBundle) (hfail : synth b = none) :
    SynthesisFallbackProp synth b := by
  unfold SynthesisFallbackProp synthesizeWithFallback
  rw [hfail]
  exact ⟨rfl, rfl, rfl, rfl, rfl, rfl⟩

/-- C7 witness: the fallback on a concrete bundle with a failing
collaborator. -/
theorem synthesis_fallback_witness :
    SynthesisFallbackProp synthDown wBundle :=
  synthesis_fallback synthDown wBundle rfl

/-- C5 counterexample: the shape the chat client consumes is not the
`OrchestrationResult` shape — `narrative_text` and `partial_failure` are
absent from the client's declared `QueryResponse` fields, so the
response shape is not stable across the client boundary. -/
theorem response_shape_counterexample :
    "narrative_text" ∈ orchestrationResultFields ∧
    "narrative_text" ∉ queryResponseFields ∧
    "partial_failure" ∈ orchestrationResultFields ∧
    "partial_failure" ∉ queryResponseFields ∧
    orchestrationResultFields ≠ queryResponseFields := by
  decide

/-- C5 (amended): the spec's `OrchestrationResult` field set and the chat
client's declared `QueryResponse` field set differ; the only field they
share is `agents_invoked` — the client renames the narrative to
`narrative_response` and declares no partial-failure field. -/
theorem response_shape_amended :
    orchestrationResultFields ≠ queryResponseFields ∧
    "agents_invoked" ∈ orchestrationResultFields ∧
    "agents_invoked" ∈ queryResponseFields ∧
    (∀ f ∈ orchestrationResultFields,
      f ∈ queryResponseFields → f = "agents_invoked") ∧
    (∀ f ∈ queryResponseFields,
      f ∈ orchestrationResultFields → f = "agents_invoked") := by
  decide

/-- C9: on close, a reconnection is scheduled exactly while the attempt
counter is strictly below 5, incrementing the counter by one and waiting
min(1000·2^n, 10000) ms before the nth scheduled attempt; the counter
resets to 0 on open; five consecutive failed attempts drive the counter to
the cap, after which no further reconnection is scheduled. -/
theorem ws_reconnect_bounded (a : Nat) :
    onClose a =
      (if a < maxReconnectAttempts then
        (a + 1, some (min (1000 * 2 ^ (a + 1)) 10000))
      else (a, none)) ∧
    ((onClose a).2.isSome ↔ a < maxReconnectAttempts) ∧
    onOpen a = 0 ∧
    closeStep^[maxReconnectAttempts] 0 = maxReconnectAttempts ∧
    (onClose (closeStep^[maxReconnectAttempts] 0)).2 = none := by
  refine ⟨rfl, ?_, rfl, by decide, by decide⟩
  by_cases h : a < maxReconnectAttempts <;> simp [onClose, h]

/-- C10: the chat client's send operation satisfies the send-message
contract in every state. -/
theorem send_message_contract (now : String) (s : ChatState) :
    SendMessageProp now s := by
  constructor
  · intro h
    have hc : (s.input.trim = "" || s.loading) = true := by
      rcases h with h | h <;> simp [h]
    unfold handleSendMessage
    rw [if_pos hc]
  · intro h1 h2
    have hc : (s.input.trim = "" || s.loading) = false := by
      simp [h1, h2]
    unfold handleSendMessage sendQuery
    rw [if_neg (by simp [hc])]

/-- C10 witness: the contract at a ready state, and the no-op at a busy
state with the in-flight hypothesis discharged. -/
theorem send_message_witness :
    SendMessageProp "2024-01-01T00:00:00Z" sReady ∧
    handleSendMessage "2024-01-01T00:00:00Z" sBusy = (sBusy, none) :=
  ⟨send_message_contract "2024-01-01T00:00:00Z" sReady,
    (send_message_contract "2024-01-01T00:00:00Z" sBusy).1 (Or.inr rfl)⟩

end ClickPost
